import Mathlib

/-!
Verification of the gnnshapes training script (src/trainingscript.py and
src/utils.py) against its specification.

The Python source is shallowly embedded: numpy arrays become lists, the
scipy/sklearn k-nearest-neighbour sparse adjacency becomes an explicit
edge-list construction, and the stateful pieces (memoization decorator,
filesystem side effects, torch checkpoint loading) become explicit state
passing over small state types.  Machine integers are modelled as `Int`/`Nat`
(labels and sizes in this program stay far below any overflow boundary).
-/

namespace GnnShapes

/-! ## GraphBuilder: `BasicShapeDataset.process`

A raw sample file holds a point-feature array `x` (stored transposed, the
code re-transposes it on load) and an integer label array `y`.  The code
fits `sklearn.neighbors.NearestNeighbors` on the points, builds the
k-neighbour connectivity matrix `kneighbors_graph(x, k)` (each row has the
`k` nearest points of the row's point, the point itself included when it is
among the `k` nearest), zeroes the diagonal with `setdiag(0)`, drops the
explicit zeros with `eliminate_zeros()`, and reads the edge list off
`nonzero()`.  Squared euclidean distance decides nearness; sklearn's
tie-breaking is implementation defined, here ties are broken by index.
The within-row ordering of the emitted edges is irrelevant to every
property below. -/

/-- One point: its feature vector (row of `event['x'].T`). -/
abbrev Point := List Int

/-- Squared euclidean distance between two feature vectors. -/
def sqDist (p q : Point) : Int :=
  (List.zipWith (fun a b => (a - b) * (a - b)) p q).sum

/-- Comparison used to order candidate neighbours of point `i`:
by squared distance, ties broken by index. -/
def knnLe (xs : List Point) (i : Nat) (j1 j2 : Nat) : Bool :=
  let d1 := sqDist (xs.getD i []) (xs.getD j1 [])
  let d2 := sqDist (xs.getD i []) (xs.getD j2 [])
  d1 < d2 || (d1 == d2 && j1 ≤ j2)

/-- Insert into a list sorted by `le` (helper for the structural sort). -/
def insertLe (le : Nat → Nat → Bool) (a : Nat) : List Nat → List Nat
  | [] => [a]
  | b :: t => if le a b then a :: b :: t else b :: insertLe le a t

/-- Structural insertion sort by `le`. -/
def sortLe (le : Nat → Nat → Bool) : List Nat → List Nat
  | [] => []
  | a :: t => insertLe le a (sortLe le t)

/-- The `k` nearest candidate indices of point `i` (row `i` of
`nbrs.kneighbors_graph(x, self.k)`): all indices sorted by distance to
point `i`, first `k` taken. -/
def knnIndices (xs : List Point) (k i : Nat) : List Nat :=
  (sortLe (knnLe xs i) (List.range xs.length)).take k

/-- Row `i` of the adjacency after `setdiag(0)` and `eliminate_zeros()`:
the self-loop entry is gone, everything else survives. -/
def rowNeighbors (xs : List Point) (k i : Nat) : List Nat :=
  (knnIndices xs k i).filter (fun j => j != i)

/-- The directed edge list `np.stack(nbrs_sm.nonzero())`, as
(source, target) pairs in row-major order. -/
def buildEdges (xs : List Point) (k : Nat) : List (Nat × Nat) :=
  (List.range xs.length).flatMap (fun i => (rowNeighbors xs k i).map (fun j => (i, j)))

/-- Per-edge labels: `y_edge` starts at zero, and where
`y[edge_index[0]] == y[edge_index[1]]` it is set to that shared label. -/
def edgeLabels (y : List Int) (edges : List (Nat × Nat)) : List Int :=
  edges.map (fun e =>
    let labelIn := y.getD e.1 0
    let labelOut := y.getD e.2 0
    if labelIn == labelOut then labelIn else 0)

/-- `BasicShapeDataset.k`. -/
def datasetK : Nat := 4

/-- A raw sample: points and one integer label per point. -/
structure RawSample where
  x : List Point
  y : List Int

/-- The `Data` record written by `process`: node features, directed edge
index pairs, per-edge labels `y`, per-node labels `y_nodes`. -/
structure GraphRecord where
  x : List Point
  edge_index : List (Nat × Nat)
  y : List Int
  y_nodes : List Int
deriving DecidableEq

/-- The body of `BasicShapeDataset.process` for one raw sample. -/
def process (s : RawSample) (k : Nat) : GraphRecord :=
  let edges := buildEdges s.x k
  { x := s.x
    edge_index := edges
    y := edgeLabels s.y edges
    y_nodes := s.y }

/-! Basic facts about the sort and the edge construction. -/

theorem mem_insertLe {le : Nat → Nat → Bool} {a b : Nat} {l : List Nat} :
    b ∈ insertLe le a l ↔ b = a ∨ b ∈ l := by
  induction l with
  | nil => simp [insertLe]
  | cons c t ih =>
    simp only [insertLe]
    split
    · simp
    · simp only [List.mem_cons, ih]
      tauto

theorem length_insertLe (le : Nat → Nat → Bool) (a : Nat) (l : List Nat) :
    (insertLe le a l).length = l.length + 1 := by
  induction l with
  | nil => simp [insertLe]
  | cons c t ih =>
    simp only [insertLe]
    split
    · simp
    · simp [ih]

theorem mem_sortLe {le : Nat → Nat → Bool} {b : Nat} {l : List Nat} :
    b ∈ sortLe le l ↔ b ∈ l := by
  induction l with
  | nil => simp [sortLe]
  | cons a t ih => simp [sortLe, mem_insertLe, ih]

theorem length_sortLe (le : Nat → Nat → Bool) (l : List Nat) :
    (sortLe le l).length = l.length := by
  induction l with
  | nil => rfl
  | cons a t ih => simp [sortLe, length_insertLe, ih]

/-- Every candidate neighbour index is an index of a point. -/
theorem knnIndices_lt {xs : List Point} {k i j : Nat} (hj : j ∈ knnIndices xs k i) :
    j < xs.length := by
  have := List.mem_of_mem_take hj
  rw [mem_sortLe] at this
  exact List.mem_range.mp this

/-- Shape of an edge produced by `buildEdges`: its source is an in-range
row index, its target is a surviving neighbour of that row. -/
theorem mem_buildEdges {xs : List Point} {k : Nat} {e : Nat × Nat}
    (he : e ∈ buildEdges xs k) :
    e.1 < xs.length ∧ e.2 ∈ knnIndices xs k e.1 ∧ e.2 ≠ e.1 := by
  rcases List.mem_flatMap.mp he with ⟨i, hi, hmem⟩
  rcases List.mem_map.mp hmem with ⟨j, hj, hje⟩
  rcases List.mem_filter.mp hj with ⟨hjk, hne⟩
  cases hje
  refine ⟨List.mem_range.mp hi, hjk, ?_⟩
  simpa using hne

theorem process_edge_index (s : RawSample) (k : Nat) :
    (process s k).edge_index = buildEdges s.x k := rfl

theorem process_y (s : RawSample) (k : Nat) :
    (process s k).y = edgeLabels s.y (buildEdges s.x k) := rfl

theorem process_y_nodes (s : RawSample) (k : Nat) :
    (process s k).y_nodes = s.y := rfl

/-- Pairing an edge with its label: the zipped list pairs each edge with
the labelling function applied to it. -/
theorem mem_zip_map {α β : Type} (f : α → β) (l : List α) :
    ∀ p ∈ l.zip (l.map f), p.2 = f p.1 := by
  induction l with
  | nil => simp
  | cons a t ih =>
    intro p hp
    rcases List.mem_cons.mp hp with hp | hp
    · subst hp; rfl
    · exact ih _ hp

/-- Membership transfers along `zip` with a mapped copy. -/
theorem zip_map_mem {α β : Type} (f : α → β) (l : List α) :
    ∀ p ∈ l.zip (l.map f), p.1 ∈ l := by
  intro p hp
  exact (List.of_mem_zip hp).1

/-! ## MemoizationLayer: `cache_return_value` / `clear_cache`

The decorator stores two attributes on the wrapper: the flag `is_called`
(absent reads as `False`) and `cached_return_value` (absent when never
computed).  A call computes the wrapped function exactly when
`not is_called or not hasattr(wrapper, 'cached_return_value')`; otherwise it
returns the cached value untouched.  `clear_cache` resets `is_called` to
`False` on every registered wrapper (it does not delete the stored value,
but the cleared flag alone forces recomputation on the next call). -/

/-- The per-wrapper attribute state. -/
structure CacheState (α : Type) where
  is_called : Bool
  cached_return_value : Option α
deriving DecidableEq

/-- A wrapper before its first call: `is_called` absent (`False`),
no cached value. -/
def initCache (α : Type) : CacheState α := ⟨false, none⟩

/-- Result of one call through the wrapper: the returned value, the
wrapper state afterwards, and whether the wrapped function actually ran. -/
structure CallResult (α : Type) where
  value : α
  state : CacheState α
  invoked : Bool
deriving DecidableEq

/-- One call of the wrapper produced by `cache_return_value`. -/
def callCached {α β : Type} (f : β → α) (s : CacheState α) (arg : β) : CallResult α :=
  match s.is_called, s.cached_return_value with
  | true, some v => ⟨v, s, false⟩
  | _, _ =>
    let v := f arg
    ⟨v, ⟨true, some v⟩, true⟩

/-- `clear_cache` as seen by one registered wrapper: `is_called := False`. -/
def clear_cache {α : Type} (s : CacheState α) : CacheState α :=
  { s with is_called := false }

/-! ## `LindseysTrainingScript.__init__`: run configuration

Fields that the verified claims never touch (`lr`, a float, and
`output_dir`) are omitted; everything else keeps its source value.  The
`osp.join(GLUEDIR, ...)` directory part of `dataset_path` is dropped: only
the substring tests against `'testsample'`/`'testset'` consume the path,
and the repository-relative tail decides them. -/

structure Config where
  debug : Bool
  directed : Bool
  train_batch_size : Nat
  valid_batch_size : Nat
  categorized : Bool
  forcecats : Bool
  cats : Int
  model_name : String
  loss : String
  optimizer_name : String
  hidden_dim : Nat
  n_iters : Nat
  n_epochs : Nat
  dataset_path : String
  load_checkpoint : Option String

/-- `LindseysTrainingScript.__init__(debug)`. -/
def initConfig (debug : Bool) : Config :=
  { debug := debug
    directed := false
    train_batch_size := 1
    valid_batch_size := 1
    categorized := true
    forcecats := true
    cats := 4
    model_name := "EdgeNetWithCategories"
    loss := "nll_loss"
    optimizer_name := "AdamW"
    hidden_dim := 64
    n_iters := 6
    n_epochs := if debug then 3 else 30
    dataset_path := if debug then "data/basicshapesv1-testset" else "data/basicshapesv1"
    load_checkpoint := none }

/-! ## Error taxonomy

The spec's names for the exceptions the script raises or propagates:
`OSError` on a bad dataset path is `PathError`; `torch.load` /
`load_state_dict` failures are `CheckpointError`; an out-of-range
`Subset` access is `IndexError`; reading the unbound `num_classes` is a
`NameError`; `torch.max` on an empty tensor is a `RuntimeError`. -/

inductive ScriptError where
  | pathError
  | checkpointError
  | indexError
  | nameError
  | runtimeError
deriving DecidableEq

/-! ## `get_full_dataset`: path validation, forced reprocessing, split -/

/-- `startsWithChars s p`: `p` is an initial run of `s` (helper for the
Python `in` substring test). -/
def startsWithChars : List Char → List Char → Bool
  | _, [] => true
  | [], _ :: _ => false
  | a :: s, b :: p => a == b && startsWithChars s p

/-- `containsChars s p`: `p` occurs contiguously inside `s`. -/
def containsChars : List Char → List Char → Bool
  | [], p => startsWithChars [] p
  | s@(_ :: t), p => startsWithChars s p || containsChars t p

/-- Python's `pat in s` on strings. -/
def containsSub (s pat : String) : Bool :=
  containsChars s.toList pat.toList

/-- The gate on lines 148: `self.debug and ('testsample' in
self.dataset_path or 'testset' in self.dataset_path)`. -/
def forcedReprocess (cfg : Config) : Bool :=
  cfg.debug && (containsSub cfg.dataset_path "testsample" || containsSub cfg.dataset_path "testset")

/-- Lines 148-152 acting on the filesystem, reduced to the one observable
the claim is about: whether `<dataset_path>/processed` exists.  When the
gate holds and the directory exists, `shutil.rmtree` removes it. -/
def forceReprocessStep (cfg : Config) (processedExists : Bool) : Bool :=
  if forcedReprocess cfg then
    if processedExists then false else processedExists
  else processedExists

/-- `tv_num = math.ceil(fulllen * 0.20)`.  Exact rational arithmetic: for
every `fulllen` below `2^52` the double-precision expression
`math.ceil(fulllen * 0.2)` equals the exact ceiling of `fulllen / 5`,
which in natural arithmetic is `(fulllen + 4) / 5`. -/
def tv_num (fulllen : Nat) : Nat := (fulllen + 4) / 5

/-- `splits = np.cumsum([fulllen - tv_num, 0, tv_num])`, overridden with
`[0, 7, 10]` in debug mode. -/
def splitsOf (fulllen : Nat) (debug : Bool) : Nat × Nat × Nat :=
  if debug then (0, 7, 10)
  else (fulllen - tv_num fulllen, fulllen - tv_num fulllen, fulllen)

/-- `list(range(0, splits[1]))`: the train `Subset` indices. -/
def train_indices (fulllen : Nat) (debug : Bool) : List Nat :=
  List.range' 0 ((splitsOf fulllen debug).2.1)

/-- `list(range(splits[1], splits[2]))`: the validation `Subset` indices. -/
def valid_indices (fulllen : Nat) (debug : Bool) : List Nat :=
  List.range' ((splitsOf fulllen debug).2.1)
    ((splitsOf fulllen debug).2.2 - (splitsOf fulllen debug).2.1)

/-- What `get_full_dataset` returns, reduced to the observables the claims
mention: the post-step cache state and the two index lists backing the
train/validation `Subset`s. -/
structure DatasetSplit where
  processedExistsAfter : Bool
  train : List Nat
  valid : List Nat
deriving DecidableEq

/-- `get_full_dataset`: `raise OSError` unless `osp.isdir(dataset_path)`;
then the forced-reprocessing step; then the positional split.  `pathIsDir`,
`processedBefore` and `fulllen` stand for the filesystem facts
`osp.isdir(self.dataset_path)`, `osp.isdir(processed_path)` and
`len(full_dataset)`. -/
def get_full_dataset (cfg : Config) (pathIsDir processedBefore : Bool)
    (fulllen : Nat) : Except ScriptError DatasetSplit :=
  if !pathIsDir then .error .pathError
  else .ok
    { processedExistsAfter := forceReprocessStep cfg processedBefore
      train := train_indices fulllen cfg.debug
      valid := valid_indices fulllen cfg.debug }

/-- `train()` up to its epoch loop: it calls `get_full_dataset` first, so
an error there propagates and the trainer's `n_epochs`-epoch loop never
starts.  The result counts the epochs that run. -/
def train_run (cfg : Config) (pathIsDir processedBefore : Bool)
    (fulllen : Nat) : Except ScriptError Nat :=
  (get_full_dataset cfg pathIsDir processedBefore fulllen).map (fun _ => cfg.n_epochs)

/-! ## `_get_trainer`: checkpoint restore

`torch.load` and `Module.load_state_dict` belong to the external learning
framework.  Modelled from the spec: restoring from an unreadable checkpoint
path, or from a checkpoint whose parameter shapes do not match the
constructed model, fails with `CheckpointError`; parameters are never
truncated or padded to fit.  A parameter mapping is abstracted to the list
of its tensor shapes. -/

/-- Modelled from the spec: `torch.load(path)['model']` — fails unless the
path is readable, otherwise yields the stored parameter shapes. -/
def torch_load (readable : Bool) (ckptShapes : List (List Nat)) :
    Except ScriptError (List (List Nat)) :=
  if readable then .ok ckptShapes else .error .checkpointError

/-- Modelled from the spec: `trainer.model.load_state_dict(sd)` — succeeds
exactly when the checkpoint shapes equal the model shapes, never truncating
or padding. -/
def load_state_dict (modelShapes ckptShapes : List (List Nat)) :
    Except ScriptError Unit :=
  if ckptShapes = modelShapes then .ok () else .error .checkpointError

/-- Lines 253-255 of `_get_trainer`: `if self.load_checkpoint:` (Python
truthiness: `None` and `''` skip) then restore.  The `Bool` result records
whether weights were restored. -/
def checkpoint_step (cfg : Config) (readable : Bool)
    (modelShapes ckptShapes : List (List Nat)) : Except ScriptError Bool :=
  match cfg.load_checkpoint with
  | none => .ok false
  | some p =>
    if p = "" then .ok false
    else
      match torch_load readable ckptShapes with
      | .error e => .error e
      | .ok shapes =>
        match load_state_dict modelShapes shapes with
        | .error e => .error e
        | .ok _ => .ok true

/-! ## `test()`: truncation of the validation subset -/

/-- Sequential access of `torch.utils.data.Subset(l, idxs)` as the
`DataLoader` drains it: each index in turn, `IndexError` past the end. -/
def subset_get {α : Type} (l : List α) : List Nat → Except ScriptError (List α)
  | [] => .ok []
  | i :: rest =>
    match l.get? i with
    | some v => (subset_get l rest).map (fun vs => v :: vs)
    | none => .error .indexError

/-- `test()` on the validation split: `Subset(valid_dataset,
list(range(10)))` fed batch-by-batch (batch size 1, no shuffle) to
`trainer.evaluate`. -/
def test_eval {α : Type} (valid : List α) : Except ScriptError (List α) :=
  subset_get valid (List.range 10)

/-! ## `get_num_classes` -/

/-- `get_num_classes(full_dataset)`: `num_classes` is assigned only under
`if self.categorized:`; with `forcecats` it is `self.cats`, otherwise
`int(full_dataset[0].y.max().item()) + 1` (the edge-label tensor `y` is
one-dimensional, so the `dim() == 1` branch applies; `max` of an empty
tensor raises).  When `categorized` is false the trailing
`logger.debug('num_classes = %s', num_classes)` reads the unbound local and
raises `NameError`.  `y0` is `full_dataset[0].y` as a list. -/
def get_num_classes (cfg : Config) (y0 : List Int) : Except ScriptError Int :=
  if cfg.categorized then
    if !cfg.forcecats then
      match y0 with
      | [] => .error .runtimeError
      | h :: t => .ok (t.foldl max h + 1)
    else .ok cfg.cats
  else .error .nameError

/-! ## Concrete samples used to exercise the theorems -/

/-- Four collinear points whose labels are all the background label `0`. -/
def sampleZeros : RawSample := ⟨[[0], [10], [20], [30]], [0, 0, 0, 0]⟩

/-- Four collinear points, two labelled `1` and two labelled `2`. -/
def sampleMixed : RawSample := ⟨[[0], [10], [20], [30]], [1, 1, 2, 2]⟩

/-! ## The claims -/

/-- C1 (counterexample): the claim "edge label 0 implies the endpoint
labels differ" fails on the graph built from a sample whose points all
carry label `0`: every matched pair shares label `0`, so the assigned edge
label is `0` while the endpoint labels are equal. -/
theorem C1_counterexample :
    ¬ (∀ p ∈ (process sampleZeros datasetK).edge_index.zip (process sampleZeros datasetK).y,
        (p.2 ≠ 0 →
          (process sampleZeros datasetK).y_nodes.getD p.1.1 0 = p.2 ∧
          (process sampleZeros datasetK).y_nodes.getD p.1.2 0 = p.2) ∧
        (p.2 = 0 →
          (process sampleZeros datasetK).y_nodes.getD p.1.1 0 ≠
            (process sampleZeros datasetK).y_nodes.getD p.1.2 0)) := by
  decide

/-- C1 (amended): for every edge of a produced `GraphRecord`, a nonzero
edge label equals both endpoint node labels; an edge label of zero means
the endpoint labels differ, or both endpoints carry the label `0`. -/
theorem C1_edge_label_rule (s : RawSample) (k : Nat) :
    ∀ p ∈ (process s k).edge_index.zip (process s k).y,
      (p.2 ≠ 0 →
        (process s k).y_nodes.getD p.1.1 0 = p.2 ∧
        (process s k).y_nodes.getD p.1.2 0 = p.2) ∧
      (p.2 = 0 →
        (process s k).y_nodes.getD p.1.1 0 ≠ (process s k).y_nodes.getD p.1.2 0 ∨
        ((process s k).y_nodes.getD p.1.1 0 = 0 ∧
          (process s k).y_nodes.getD p.1.2 0 = 0)) := by
  intro p hp
  rw [process_edge_index, process_y] at hp
  simp only [edgeLabels] at hp
  have hlab := mem_zip_map _ _ p hp
  simp only [beq_iff_eq] at hlab
  simp only [process_y_nodes]
  split_ifs at hlab with h <;> omega

/-- Witness for C1: the matched edge `(0, 1)` of `sampleMixed` carries the
shared nonzero label `1`, and the rule instantiates on it. -/
theorem C1_edge_label_rule_witness :
    ((0, 1), (1 : Int)) ∈
      (process sampleMixed datasetK).edge_index.zip (process sampleMixed datasetK).y ∧
    (1 : Int) ≠ 0 ∧
    (process sampleMixed datasetK).y_nodes.getD 0 0 = 1 ∧
    (process sampleMixed datasetK).y_nodes.getD 1 0 = 1 := by
  refine ⟨by decide, by decide, ?_⟩
  exact (C1_edge_label_rule sampleMixed datasetK ((0, 1), (1 : Int)) (by decide)).1 (by decide)

/-- C2: `process` never emits a self-loop edge: the `setdiag(0)` /
`eliminate_zeros()` step drops every pair whose source index equals its
target index. -/
theorem C2_no_self_loop (s : RawSample) (k : Nat) :
    ∀ e ∈ (process s k).edge_index, e.1 ≠ e.2 := by
  intro e he
  rw [process_edge_index] at he
  have h := mem_buildEdges he
  exact fun heq => h.2.2 heq.symm

/-- Witness for C2: the edge `(0, 1)` exists in a produced record and its
endpoints differ. -/
theorem C2_no_self_loop_witness :
    (0, 1) ∈ (process sampleMixed datasetK).edge_index ∧
    ((0, 1) : Nat × Nat).1 ≠ ((0, 1) : Nat × Nat).2 :=
  ⟨by decide, C2_no_self_loop sampleMixed datasetK (0, 1) (by decide)⟩

/-- Each `flatMap` block of bounded size bounds the total length. -/
theorem length_flatMap_le {α β : Type} (l : List α) (f : α → List β) (k : Nat)
    (h : ∀ a, (f a).length ≤ k) : (l.flatMap f).length ≤ l.length * k := by
  induction l with
  | nil => simp
  | cons a t ih =>
    simp only [List.flatMap_cons, List.length_append, List.length_cons]
    calc (f a).length + (t.flatMap f).length ≤ k + t.length * k :=
          Nat.add_le_add (h a) ih
      _ = (t.length + 1) * k := by ring

/-- A row keeps at most `k` neighbours. -/
theorem rowNeighbors_length_le (xs : List Point) (k i : Nat) :
    (rowNeighbors xs k i).length ≤ k := by
  calc (rowNeighbors xs k i).length ≤ (knnIndices xs k i).length :=
        List.length_filter_le _ _
    _ ≤ k := by
        rw [knnIndices, List.length_take]
        exact min_le_left _ _

/-- C7: a produced record has at most `N × k` directed edges, and every
edge label is `0` or one of the sample's node labels. -/
theorem C7_edge_bounds (s : RawSample) (k : Nat) :
    (process s k).edge_index.length ≤ s.x.length * k ∧
    ∀ p ∈ (process s k).edge_index.zip (process s k).y, p.2 = 0 ∨ p.2 ∈ s.y := by
  constructor
  · show (buildEdges s.x k).length ≤ s.x.length * k
    have hb := length_flatMap_le (List.range s.x.length)
      (fun i => (rowNeighbors s.x k i).map (fun j => (i, j))) k
      (fun i => by simpa using rowNeighbors_length_le s.x k i)
    simpa [buildEdges] using hb
  · intro p hp
    rw [process_edge_index, process_y] at hp
    simp only [edgeLabels] at hp
    have hlab := mem_zip_map _ _ p hp
    simp only [beq_iff_eq] at hlab
    split_ifs at hlab with h
    · rcases Nat.lt_or_ge p.1.1 s.y.length with hlt | hge
      · right
        rw [hlab, List.getD_eq_getElem s.y 0 hlt]
        exact List.getElem_mem hlt
      · left
        rw [hlab, List.getD_eq_default s.y 0 hge]
    · left
      exact hlab

/-- Witness for C7: the label of edge `(0, 1)` of `sampleMixed` is `0` or
one of the sample's node labels. -/
theorem C7_edge_bounds_witness :
    ((0, 1), (1 : Int)) ∈
      (process sampleMixed datasetK).edge_index.zip (process sampleMixed datasetK).y ∧
    ((1 : Int) = 0 ∨ (1 : Int) ∈ sampleMixed.y) :=
  ⟨by decide, (C7_edge_bounds sampleMixed datasetK).2 ((0, 1), (1 : Int)) (by decide)⟩

/-- C3 (counterexample): the debug override returns validation indices
`[7, 8, 9]` no matter how long the dataset is, so on a 5-record dataset the
validation set is not a subset of `[0, 5)`. -/
theorem C3_counterexample : ¬ (∀ i ∈ valid_indices 5 true, i < 5) := by
  decide

/-- C3 (amended): the split is a pure function of the record count and the
debug flag.  Default policy: the validation block is the trailing
contiguous run of `tv_num n` records, where `tv_num n` is the exact
ceiling of `n / 5`, the train block is the remaining prefix, the two are
disjoint and both lie in `[0, n)`.  Debug policy: train is exactly
`0..6` and validation exactly `7..9`, disjoint, and contained in `[0, n)`
whenever `n ≥ 10`. -/
theorem C3_split (n : Nat) :
    (∀ i ∈ train_indices n false, ∀ j ∈ valid_indices n false, i ≠ j) ∧
    train_indices n false = List.range' 0 (n - tv_num n) ∧
    valid_indices n false = List.range' (n - tv_num n) (tv_num n) ∧
    (valid_indices n false).length = tv_num n ∧
    (n ≤ 5 * tv_num n ∧ 5 * tv_num n < n + 5) ∧
    (∀ i ∈ train_indices n false, i < n) ∧
    (∀ i ∈ valid_indices n false, i < n) ∧
    train_indices n true = [0, 1, 2, 3, 4, 5, 6] ∧
    valid_indices n true = [7, 8, 9] ∧
    (∀ i ∈ train_indices n true, ∀ j ∈ valid_indices n true, i ≠ j) ∧
    (10 ≤ n →
      (∀ i ∈ train_indices n true, i < n) ∧ (∀ i ∈ valid_indices n true, i < n)) := by
  have htv : tv_num n ≤ n := by unfold tv_num; omega
  have hvaf : valid_indices n false = List.range' (n - tv_num n) (tv_num n) := by
    show List.range' (n - tv_num n) (n - (n - tv_num n)) = _
    rw [Nat.sub_sub_self htv]
  refine ⟨?_, rfl, hvaf, ?_, ?_, ?_, ?_, rfl, rfl, ?_, ?_⟩
  · intro i hi j hj
    have h1 := List.mem_range'_1.mp (show i ∈ List.range' 0 (n - tv_num n) from hi)
    have h2 := List.mem_range'_1.mp
      (show j ∈ List.range' (n - tv_num n) (tv_num n) from hvaf ▸ hj)
    omega
  · rw [hvaf, List.length_range']
  · unfold tv_num; omega
  · intro i hi
    have h1 := List.mem_range'_1.mp (show i ∈ List.range' 0 (n - tv_num n) from hi)
    omega
  · intro i hi
    have h2 := List.mem_range'_1.mp
      (show i ∈ List.range' (n - tv_num n) (tv_num n) from hvaf ▸ hi)
    omega
  · intro i hi j hj
    have h1 := List.mem_range'_1.mp (show i ∈ List.range' 0 7 from hi)
    have h2 := List.mem_range'_1.mp (show j ∈ List.range' 7 3 from hj)
    omega
  · intro h10
    constructor
    · intro i hi
      have h1 := List.mem_range'_1.mp (show i ∈ List.range' 0 7 from hi)
      omega
    · intro i hi
      have h2 := List.mem_range'_1.mp (show i ∈ List.range' 7 3 from hi)
      omega

/-- Witness for C3: with 12 records in debug mode, validation index 9 is
in range. -/
theorem C3_split_witness : 10 ≤ 12 ∧ 9 ∈ valid_indices 12 true ∧ 9 < 12 := by
  refine ⟨by decide, by decide, ?_⟩
  exact ((C3_split 12).2.2.2.2.2.2.2.2.2.2 (by decide)).2 9 (by decide)

/-- C4: the first call through `cache_return_value` runs the wrapped
function and stores its value; a later call with a different argument runs
nothing, returns the stored value and leaves the state untouched; after
`clear_cache` the next call runs the wrapped function again. -/
theorem C4_memoization {α β : Type} (f : β → α) (a b : β) :
    (callCached f (initCache α) a).value = f a ∧
    (callCached f (initCache α) a).invoked = true ∧
    (callCached f (initCache α) a).state = ⟨true, some (f a)⟩ ∧
    (callCached f (callCached f (initCache α) a).state b).value = f a ∧
    (callCached f (callCached f (initCache α) a).state b).invoked = false ∧
    (callCached f (callCached f (initCache α) a).state b).state =
      (callCached f (initCache α) a).state ∧
    (callCached f (clear_cache (callCached f (initCache α) a).state) b).value = f b ∧
    (callCached f (clear_cache (callCached f (initCache α) a).state) b).invoked = true :=
  ⟨rfl, rfl, rfl, rfl, rfl, rfl, rfl, rfl⟩

/-- C5: whenever the debug/test-path gate holds, the reprocessing step
leaves no processed directory behind; whenever it does not hold, the
directory state is untouched.  The gate holds for the debug configuration
(its path names the `testset` sample) and not for the default one. -/
theorem C5_forced_reprocess (cfg : Config) (b : Bool) :
    (forcedReprocess cfg = true → forceReprocessStep cfg b = false) ∧
    (forcedReprocess cfg = false → forceReprocessStep cfg b = b) ∧
    forcedReprocess (initConfig true) = true ∧
    forcedReprocess (initConfig false) = false := by
  refine ⟨?_, ?_, by rfl, by rfl⟩
  · intro h
    unfold forceReprocessStep
    rw [if_pos h]
    cases b <;> rfl
  · intro h
    unfold forceReprocessStep
    rw [if_neg (by simp [h])]

/-- Witness for C5: the debug configuration removes an existing processed
directory; the default configuration keeps it. -/
theorem C5_forced_reprocess_witness :
    forcedReprocess (initConfig true) = true ∧
    forceReprocessStep (initConfig true) true = false ∧
    forcedReprocess (initConfig false) = false ∧
    forceReprocessStep (initConfig false) true = true := by
  refine ⟨by rfl, ?_, by rfl, ?_⟩
  · exact (C5_forced_reprocess (initConfig true) true).1 (by rfl)
  · exact (C5_forced_reprocess (initConfig false) true).2.1 (by rfl)

/-- C6: with a dataset path that is not a directory, `get_full_dataset`
fails with `PathError`, hence `train` fails before running any epoch; with
an existing directory no such error arises at the validation step and the
split is produced. -/
theorem C6_path_validation (cfg : Config) (isDir processedBefore : Bool) (n : Nat) :
    (isDir = false →
      get_full_dataset cfg isDir processedBefore n = .error .pathError ∧
      train_run cfg isDir processedBefore n = .error .pathError) ∧
    (isDir = true →
      get_full_dataset cfg isDir processedBefore n =
        .ok ⟨forceReprocessStep cfg processedBefore,
          train_indices n cfg.debug, valid_indices n cfg.debug⟩) := by
  constructor
  · intro h
    subst h
    exact ⟨rfl, rfl⟩
  · intro h
    subst h
    rfl

/-- Witness for C6: a missing directory aborts with `PathError` and no
epoch count is produced; an existing one yields the split. -/
theorem C6_path_validation_witness :
    get_full_dataset (initConfig false) false true 10 = .error .pathError ∧
    train_run (initConfig false) false true 10 = .error .pathError ∧
    get_full_dataset (initConfig false) true true 10 =
      .ok ⟨forceReprocessStep (initConfig false) true,
        train_indices 10 (initConfig false).debug,
        valid_indices 10 (initConfig false).debug⟩ := by
  refine ⟨?_, ?_, ?_⟩
  · exact ((C6_path_validation (initConfig false) false true 10).1 rfl).1
  · exact ((C6_path_validation (initConfig false) false true 10).1 rfl).2
  · exact (C6_path_validation (initConfig false) true true 10).2 rfl

/-- A session configured to resume from a checkpoint file. -/
def ckptConfig : Config :=
  { initConfig false with load_checkpoint := some "model_checkpoint.pth.tar" }

/-- C8: with a configured (nonempty) checkpoint path, the restore step
fails with `CheckpointError` when the path is unreadable or when the
checkpoint's parameter shapes differ from the model's; it succeeds exactly
when the path is readable and the shapes agree — no truncation or
padding. -/
theorem C8_checkpoint (cfg : Config) (p : String) (readable : Bool)
    (modelShapes ckptShapes : List (List Nat))
    (hp : cfg.load_checkpoint = some p) (hne : p ≠ "") :
    (readable = false →
      checkpoint_step cfg readable modelShapes ckptShapes = .error .checkpointError) ∧
    (ckptShapes ≠ modelShapes →
      checkpoint_step cfg readable modelShapes ckptShapes = .error .checkpointError) ∧
    (checkpoint_step cfg readable modelShapes ckptShapes = .ok true ↔
      readable = true ∧ ckptShapes = modelShapes) := by
  have hstep : checkpoint_step cfg readable modelShapes ckptShapes =
      if readable then
        (if ckptShapes = modelShapes then .ok true else .error .checkpointError)
      else .error .checkpointError := by
    unfold checkpoint_step torch_load load_state_dict
    rw [hp]
    cases readable
    · simp [hne]
    · by_cases hcs : ckptShapes = modelShapes
      · simp [hne, hcs]
      · simp [hne, hcs]
  rw [hstep]
  refine ⟨?_, ?_, ?_⟩
  · intro h
    subst h
    rfl
  · intro h
    cases readable
    · rfl
    · simp [h]
  · cases readable
    · simp
    · by_cases hcs : ckptShapes = modelShapes
      · simp [hcs]
      · simp [hcs]

/-- Witness for C8: concrete restores through `ckptConfig` — unreadable
path fails, mismatched shapes fail, matching shapes restore. -/
theorem C8_checkpoint_witness :
    ckptConfig.load_checkpoint = some "model_checkpoint.pth.tar" ∧
    "model_checkpoint.pth.tar" ≠ "" ∧
    checkpoint_step ckptConfig false [[4, 3]] [[4, 3]] = .error .checkpointError ∧
    checkpoint_step ckptConfig true [[4, 3]] [[4, 2]] = .error .checkpointError ∧
    checkpoint_step ckptConfig true [[4, 3]] [[4, 3]] = .ok true := by
  refine ⟨rfl, by decide, ?_, ?_, ?_⟩
  · exact (C8_checkpoint ckptConfig _ false [[4, 3]] [[4, 3]] rfl (by decide)).1 rfl
  · exact (C8_checkpoint ckptConfig _ true [[4, 3]] [[4, 2]] rfl (by decide)).2.1 (by decide)
  · exact (C8_checkpoint ckptConfig _ true [[4, 3]] [[4, 3]] rfl (by decide)).2.2.mpr
      ⟨rfl, rfl⟩

/-- In-range sequential subset access succeeds and returns the slice. -/
theorem subset_get_range'_ok {α : Type} (l : List α) :
    ∀ (n a : Nat), a + n ≤ l.length →
      subset_get l (List.range' a n) = .ok ((l.drop a).take n) := by
  intro n
  induction n with
  | zero => intro a _; simp [subset_get]
  | succ m ih =>
    intro a h
    have ha : a < l.length := by omega
    rw [List.range'_succ]
    simp only [subset_get]
    rw [List.get?_eq_getElem?, List.getElem?_eq_getElem ha]
    rw [ih (a + 1) (by omega)]
    rw [List.drop_eq_getElem_cons ha]
    rfl

/-- Sequential subset access past the end of the list fails. -/
theorem subset_get_range'_err {α : Type} (l : List α) :
    ∀ (n a : Nat), n ≠ 0 → l.length < a + n →
      subset_get l (List.range' a n) = .error .indexError := by
  intro n
  induction n with
  | zero => intro a h0 _; exact absurd rfl h0
  | succ m ih =>
    intro a _ hlen
    rw [List.range'_succ]
    simp only [subset_get]
    rcases Nat.lt_or_ge a l.length with ha | ha
    · rw [List.get?_eq_getElem?, List.getElem?_eq_getElem ha]
      rw [ih (a + 1) (by omega) (by omega)]
      rfl
    · rw [List.get?_eq_getElem?, List.getElem?_eq_none ha]

/-- C9: `test()` always evaluates the `Subset` of the first 10 validation
indices: with at least 10 validation records exactly records `0..9` are
read, with fewer the pass dies on an out-of-range index instead of
evaluating what is there. -/
theorem C9_test_truncation {α : Type} (valid : List α) :
    (10 ≤ valid.length → test_eval valid = .ok (valid.take 10)) ∧
    (valid.length < 10 → test_eval valid = .error .indexError) := by
  constructor
  · intro h
    unfold test_eval
    rw [List.range_eq_range']
    rw [subset_get_range'_ok valid 10 0 (by omega)]
    simp
  · intro h
    unfold test_eval
    rw [List.range_eq_range']
    exact subset_get_range'_err valid 10 0 (by decide) (by omega)

/-- Twelve cached validation records. -/
def validLong : List Int := [3, 1, 4, 1, 5, 9, 2, 6, 5, 3, 5, 8]

/-- The debug split's three validation records. -/
def validShort : List Int := [7, 7, 7]

/-- Witness for C9: a 12-record validation split is truncated to its first
10 records; the debug-sized 3-record split raises `IndexError`. -/
theorem C9_test_truncation_witness :
    10 ≤ validLong.length ∧ test_eval validLong = .ok (validLong.take 10) ∧
    validShort.length < 10 ∧ test_eval validShort = .error .indexError := by
  refine ⟨by decide, ?_, by decide, ?_⟩
  · exact (C9_test_truncation validLong).1 (by decide)
  · exact (C9_test_truncation validShort).2 (by decide)

/-- C10: with the constructed configuration (categorized and `forcecats`
both true), `get_num_classes` returns the constant `cats = 4` whatever the
dataset labels are; with `categorized` false it dies reading the unbound
`num_classes` local. -/
theorem C10_num_classes (d : Bool) (y0 y1 : List Int) (cfg : Config) :
    get_num_classes (initConfig d) y0 = .ok 4 ∧
    (initConfig d).cats = 4 ∧
    (cfg.categorized = true → cfg.forcecats = true →
      get_num_classes cfg y0 = .ok cfg.cats ∧
      get_num_classes cfg y0 = get_num_classes cfg y1) ∧
    (cfg.categorized = false → get_num_classes cfg y0 = .error .nameError) := by
  refine ⟨rfl, rfl, ?_, ?_⟩
  · intro hc hf
    unfold get_num_classes
    rw [hc, hf]
    exact ⟨rfl, rfl⟩
  · intro hc
    unfold get_num_classes
    rw [hc]
    rfl

/-- A session with `categorized` switched off. -/
def uncategorizedConfig : Config := { initConfig true with categorized := false }

/-- Witness for C10: concrete label lists leave the class count at 4; the
uncategorized session raises `NameError`. -/
theorem C10_num_classes_witness :
    get_num_classes (initConfig true) [0, 1, 2] = .ok 4 ∧
    uncategorizedConfig.categorized = false ∧
    get_num_classes uncategorizedConfig [0, 1, 2] = .error .nameError := by
  refine ⟨?_, rfl, ?_⟩
  · exact (C10_num_classes true [0, 1, 2] [0, 1, 2] (initConfig true)).1
  · exact (C10_num_classes true [0, 1, 2] [0, 1, 2] uncategorizedConfig).2.2.2 rfl

end GnnShapes
